import Mathlib

/-!
Verification development for the FlukaQueueSub batch-job fan-out scripts
(launch_jobs_htcondor.py, launch_jobs_lsf.py, scripts/launch_jobs_ts.py).

The Python scripts are shallowly embedded: pure string manipulation becomes
Lean string functions, the per-run side effects (directory creation, the
external cp call, working-directory changes, logging, and submission) are
recorded as an explicit event trace, and the mutable working directory is
threaded as an explicit component stack.  Randomness (random.randint) and
external-world outcomes (file presence after the cp, scheduler exit codes,
captured stdout/stderr, assigned cluster ids) are supplied by oracles so the
orchestrators stay deterministic functions of their inputs.
-/

namespace FlukaQueueSub

/-! ## String helpers mirroring Python primitives -/

/-- Naive substring test: does the pattern occur contiguously in the text?
Mirrors the Python expression pat in s used at launch_jobs_htcondor.py:43. -/
def occursIn (pat : List Char) : List Char → Bool
  | [] => pat.isEmpty
  | c :: rest => decide (pat = List.take pat.length (c :: rest)) || occursIn pat rest

/-- Left padding with the zero character, as the Python format spec 04d does:
values shorter than the width are padded, longer values are kept whole. -/
def padZeros (width : Nat) (s : String) : String :=
  String.mk (List.replicate (width - s.length) '0' ++ s.data)

/-- Rendering of a Python f-string field i:04d. -/
def pyFormat04d (i : Nat) : String := padZeros 4 (Nat.repr i)

/-- Right alignment in a fixed-width field, as the Python format spec >10n
does for a non-negative integer (no locale is configured, so the n spec
renders like d). -/
def rightAlign (width : Nat) (s : String) : String :=
  String.mk (List.replicate (width - s.length) ' ' ++ s.data)

/-- Python whitespace test used by str.strip. -/
def isPySpace (c : Char) : Bool :=
  c = ' ' || c = '\t' || c = '\n' || c = '\x0d' || c = '\x0b' || c = '\x0c'

/-- Python str.strip(): drop leading and trailing whitespace. -/
def pyStrip (s : String) : String :=
  String.mk (((s.data.dropWhile isPySpace).reverse.dropWhile isPySpace).reverse)

/-- Splitting a path text on the slash character (the separator semantics of
os.path on POSIX, which the scripts assume). -/
def splitOnSlash : List Char → List (List Char)
  | [] => [[]]
  | c :: rest =>
    if c = '/' then [] :: splitOnSlash rest
    else
      match splitOnSlash rest with
      | [] => [[c]]
      | h :: t => (c :: h) :: t

/-- Components of a relative path string. -/
def pathComponents (p : String) : List String :=
  (splitOnSlash p.data).map String.mk

/-- One step of resolving a relative chdir against a component stack. -/
def chdirStep (cwd : List String) (comp : String) : List String :=
  if comp = ".." then cwd.dropLast
  else if comp = "." then cwd
  else if comp = "" then cwd
  else cwd ++ [comp]

/-- Effect of os.chdir with a relative path on the process working
directory, modelled as a stack of path components. -/
def applyChdir (cwd : List String) (p : String) : List String :=
  (pathComponents p).foldl chdirStep cwd

/-- Model of os.path.join for the non-absolute second argument used here. -/
def os_path_join (a b : String) : String := a ++ "/" ++ b

/-- Model of os.path.basename: the last slash-separated component. -/
def py_basename (s : String) : String := (pathComponents s).getLastD s

/-- Base part of os.path.splitext: split at the last dot of the name,
keeping the whole name when there is no dot or when everything before the
last dot is dots (Python treats leading dots of a basename, as in .inp or
..inp, as part of the root, not as an extension separator). -/
def py_splitext_base (s : String) : String :=
  let stem := ((s.data.reverse.dropWhile (fun c => !(c = '.'))).drop 1).reverse
  if '.' ∈ s.data ∧ ¬ (∀ c ∈ stem, c = '.') then String.mk stem else s

/-- Value of stripped_name in every launch_jobs variant:
os.path.splitext(os.path.basename(input_file))[0]. -/
def stripped_name (input_file : String) : String :=
  py_splitext_base (py_basename input_file)

/-! ## Seed mutation (generate_input, identical in all three scripts) -/

/-- Range predicate of the Python call random.randint(1, int(9E7)).
Python randint is inclusive at BOTH endpoints, so 90000000 itself is a
possible seed. -/
def randintValid (s : Nat) : Prop := 1 ≤ s ∧ s ≤ 90000000

instance (s : Nat) : Decidable (randintValid s) := by
  unfold randintValid; infer_instance

/-- The replacement seed line built at launch_jobs_htcondor.py:38 (and the
identical lines of the other two scripts): the f-string
RANDOMIZ, ten spaces, 1., the seed right-aligned to width ten, newline. -/
def new_randomiz (seed : Nat) : String :=
  "RANDOMIZ          1." ++ rightAlign 10 (Nat.repr seed) ++ "\n"

/-- Test for the marker, the Python expression RANDOMIZ in line. -/
def lineHasMarker (line : String) : Bool :=
  occursIn ("RANDOMIZ".data) line.data

/-- First-match-wins line replacement: the loop with break of
generate_input.  Only the first line containing the marker is replaced;
every other line, markers included, is kept as is. -/
def replaceFirstMarker (newLine : String) : List String → List String
  | [] => []
  | l :: ls => if lineHasMarker l then newLine :: ls else l :: replaceFirstMarker newLine ls

/-- Content transformation of generate_input on the lines read by
readlines. -/
def generate_input_lines (seed : Nat) (data : List String) : List String :=
  replaceFirstMarker (new_randomiz seed) data

/-- Name the mutated file is renamed to and that generate_input returns. -/
def generate_input_name (base : String) (iteration : Nat) : String :=
  base ++ "_" ++ pyFormat04d iteration ++ ".inp"

/-! ## A small in-memory filesystem for the mutation/rename effect -/

/-- Files of one directory: an association of names to line lists. -/
abbrev FS := List (String × List String)

/-- Lookup of a file by name. -/
def fsLookup (fs : FS) (name : String) : Option (List String) :=
  match fs with
  | [] => none
  | (n, c) :: rest => if n = name then some c else fsLookup rest name

/-- Removal of a file by name. -/
def fsErase (fs : FS) (name : String) : FS :=
  match fs with
  | [] => []
  | (n, c) :: rest => if n = name then fsErase rest name else (n, c) :: fsErase rest name

/-- Writing (creating or overwriting) a file. -/
def fsSet (fs : FS) (name : String) (content : List String) : FS :=
  (name, content) :: fsErase fs name

/-- Full effect of generate_input on the current job directory: open
base.inp (FileNotFoundError when absent), rewrite it in place with the
first marker line replaced, then os.rename it to base_IIII.inp and return
that name.  Truncation after seek(0) is implicit in the overwrite. -/
def generate_input_fs (base : String) (iteration seed : Nat) (fs : FS) :
    Except String (String × FS) :=
  match fsLookup fs (base ++ ".inp") with
  | none => Except.error ("FileNotFoundError: " ++ base ++ ".inp")
  | some data =>
    let newData := generate_input_lines seed data
    let fs1 := fsSet fs (base ++ ".inp") newData
    let newName := generate_input_name base iteration
    Except.ok (newName, fsSet (fsErase fs1 (base ++ ".inp")) newName newData)

/-! ## Launch command and script synthesis -/

/-- The fluka_command expression of generate_sh in the HTCondor and LSF
scripts: the sentinel is the exact string None (capital N). -/
def fluka_command (fluka_path custom_exe : String) : String :=
  if custom_exe = "None" then fluka_path ++ "/rfluka -M 1"
  else fluka_path ++ "/rfluka -M 1 -e " ++ custom_exe

/-- The inline command of launch_jobs_ts.py:63, same sentinel test. -/
def ts_fluka_command (custom_exe new_input : String) : String :=
  if custom_exe = "None" then "rfluka -M 1 " ++ new_input
  else "rfluka -M 1 -e " ++ custom_exe ++ " " ++ new_input

/-- Rendered content of the HTCondor SCRIPT_TEMPLATE after substitute. -/
def condor_script_content (fluka_cmd input : String) : String :=
  "#!/bin/env bash\n\n. /cvmfs/sft.cern.ch/lcg/views/setupViews.sh LCG_97python3 x86_64-centos7-gcc9-opt\n\n"
    ++ fluka_cmd ++ " " ++ input ++ "\n"

/-- Placeholders referred to by the LSF SCRIPT_TEMPLATE. -/
def lsf_template_placeholders : List String :=
  ["input", "ntasks", "mem", "time", "pog_dir", "queue", "fluka_command"]

/-- Keyword arguments that the LSF generate_sh passes to substitute. -/
def lsf_substitute_kwargs : List String :=
  ["input", "fluka_command", "pog_dir", "mem", "ntasks", "time"]

/-- Outcome of the substitute call inside the LSF generate_sh.  Python
string.Template.substitute raises KeyError when the template holds a
placeholder that is absent from the supplied keyword arguments; the LSF
template refers to queue, which generate_sh never supplies, so this call
always raises (its rendered text is never produced and is not modelled). -/
def lsf_generate_sh_outcome : Except String Unit :=
  if lsf_template_placeholders.all (fun p => lsf_substitute_kwargs.contains p) then
    Except.ok ()
  else Except.error ("KeyError: \x27queue\x27")

/-! ## The HTCondor submit description -/

/-- Structured submission description of generate_submit_description
(launch_jobs_htcondor.py:72-87).  The maxRuntime field carries the
+MaxRuntime entry.  Field types follow the argparse declarations: mem and
the transfer/output/error/log entries are strings, ncpu/disk/time are
integers.  The dict key universe is a reserved word in Lean, so the field
carrying it is called univ here. -/
structure SubmitDescription where
  univ : String
  executable : String
  transfer_input_files : String
  should_transfer_files : String
  when_to_transfer_output : String
  output : String
  error : String
  log : String
  request_memory : String
  request_cpus : Nat
  request_disk : Nat
  maxRuntime : Nat
deriving DecidableEq

/-- Embedding of generate_submit_description; the iteration argument is
taken and ignored, exactly as in the source. -/
def generate_submit_description (iteration : Nat) (input script_name mem : String)
    (ncpu disk time : Nat) (transfer_files output error log : String) :
    SubmitDescription :=
  { univ := "vanilla"
    executable := script_name
    transfer_input_files := input
    should_transfer_files := transfer_files
    when_to_transfer_output := "ON_EXIT"
    output := output
    error := error
    log := log
    request_memory := mem
    request_cpus := ncpu
    request_disk := disk
    maxRuntime := time }

/-- Quoted rendering of a string, as Python repr does inside a dict
(escaping inside the value is not modelled). -/
def pyStrRepr (s : String) : String := "\x27" ++ s ++ "\x27"

/-- Rendering of the description the way the f-string of the dry-run log
line displays the Python dict. -/
def descrRepr (d : SubmitDescription) : String :=
  "\x7b\x27universe\x27: " ++ pyStrRepr d.univ
    ++ ", \x27executable\x27: " ++ pyStrRepr d.executable
    ++ ", \x27transfer_input_files\x27: " ++ pyStrRepr d.transfer_input_files
    ++ ", \x27should_transfer_files\x27: " ++ pyStrRepr d.should_transfer_files
    ++ ", \x27when_to_transfer_output\x27: " ++ pyStrRepr d.when_to_transfer_output
    ++ ", \x27output\x27: " ++ pyStrRepr d.output
    ++ ", \x27error\x27: " ++ pyStrRepr d.error
    ++ ", \x27log\x27: " ++ pyStrRepr d.log
    ++ ", \x27request_memory\x27: " ++ pyStrRepr d.request_memory
    ++ ", \x27request_cpus\x27: " ++ Nat.repr d.request_cpus
    ++ ", \x27request_disk\x27: " ++ Nat.repr d.request_disk
    ++ ", \x27+MaxRuntime\x27: " ++ Nat.repr d.maxRuntime ++ "\x7d"

/-! ## Output-root allocation (the while loop of every launch_jobs) -/

/-- The preferred root name: stripped_name when no output-dir override is
given, the override otherwise (identical in all three scripts). -/
def baseDirName (input_file : String) (output_dir : Option String) : String :=
  match output_dir with
  | none => stripped_name input_file
  | some d => d

/-- Candidate names probed by the collision loop: the preferred name
itself, then name_1, name_2, and so on. -/
def nameCandidate (base : String) : Nat → String
  | 0 => base
  | k + 1 => base ++ "_" ++ Nat.repr (k + 1)

/-- The while os.path.exists loop, fuel-bounded to stay a total function:
starting from candidate k, return the first candidate that does not exist.
When the fuel runs out the current candidate is returned unchecked; the
theorems only use fuels large enough to reach the first free name. -/
def allocateLoop (ex : String → Bool) (base : String) : Nat → Nat → String
  | 0, k => nameCandidate base k
  | fuel + 1, k =>
    if ex (nameCandidate base k) then allocateLoop ex base fuel (k + 1)
    else nameCandidate base k

/-- Name of the output root directory the run creates. -/
def allocateDir (ex : String → Bool) (base : String) (fuel : Nat) : String :=
  allocateLoop ex base fuel 0

/-! ## Event traces of the orchestrators -/

/-- Observable side effects of one run.  systemCp is the os.system call
that copies the template (an external process, but not a submission);
scheddInit/scheddSubmit are the live HTCondor API touches; runCmd is a
subprocess.run of an external submission command (bsub or ts). -/
inductive Ev where
  | mkdir (path : String)
  | systemCp (cmd : String)
  | chdir (path : String)
  | writeScript (name content : String)
  | logInfo (msg : String)
  | printOut (msg : String)
  | scheddInit
  | scheddSubmit (descr : SubmitDescription)
  | runCmd (cmd : String)
deriving DecidableEq

/-- Trace plus working directory of a run in progress. -/
structure RunState where
  events : List Ev
  cwd : List String
deriving DecidableEq

/-- Fresh state with an empty trace. -/
def initState (cwd : List String) : RunState := ⟨[], cwd⟩

/-- State carried by a finished run, whether it returned or raised. -/
def resultState : Except RunState RunState → RunState
  | Except.ok st => st
  | Except.error st => st

/-- True exactly when the run raised an uncaught exception. -/
def exceptAborted : Except RunState RunState → Bool
  | Except.ok _ => false
  | Except.error _ => true

/-- Event classifiers used by the theorems. -/
def isSubmissionEv : Ev → Bool
  | Ev.scheddInit => true
  | Ev.scheddSubmit _ => true
  | Ev.runCmd _ => true
  | _ => false

def isLogEv : Ev → Bool
  | Ev.logInfo _ => true
  | _ => false

def isMkdirEv : Ev → Bool
  | Ev.mkdir _ => true
  | _ => false

def isRunCmdEv : Ev → Bool
  | Ev.runCmd _ => true
  | _ => false

/-- Concatenation of per-index event lists, used to describe the trace of a
completed loop. -/
def evConcat (f : Nat → List Ev) : List Nat → List Ev
  | [] => []
  | i :: rest => f i ++ evConcat f rest

/-- Working directory obtained by replaying the chdir events of a trace
from a starting directory.  The orchestrators record every os.chdir in the
trace, so this recovers the directory each later call executes in. -/
def replayCwd (cwd : List String) : List Ev → List String
  | [] => cwd
  | Ev.chdir p :: rest => replayCwd (applyChdir cwd p) rest
  | _ :: rest => replayCwd cwd rest

/-- Resolved locations of the os.makedirs calls of a trace: every mkdir
argument is a relative path, which the operating system resolves against
the working directory current at the time of the call. -/
def resolvedMkdirs (cwd : List String) : List Ev → List (List String)
  | [] => []
  | Ev.chdir p :: rest => resolvedMkdirs (applyChdir cwd p) rest
  | Ev.mkdir p :: rest => applyChdir cwd p :: resolvedMkdirs cwd rest
  | _ :: rest => resolvedMkdirs cwd rest

/-! ## Environment oracles -/

/-- World oracle for the HTCondor script: ex answers os.path.exists during
root allocation, mutOk tells whether base.inp is present and readable in
job directory i when generate_input opens it (the cp is an unchecked
external command), cluster is the id the live scheduler would assign, and
fuel bounds the allocation loop. -/
structure CondorEnv where
  ex : String → Bool
  mutOk : Nat → Bool
  cluster : Nat → Nat
  fuel : Nat

/-- World oracle for the CLI scripts (LSF and task-spooler): submission is
subprocess.run, whose exit code and captured streams for job i are given by
subRC, subOut and subErr. -/
structure CliEnv where
  ex : String → Bool
  mutOk : Nat → Bool
  subRC : Nat → Nat
  subOut : Nat → String
  subErr : Nat → String
  fuel : Nat

/-! ## HTCondor orchestrator (launch_jobs_htcondor.py launch_jobs) -/

/-- Events of the start of every iteration, identical in all three
scripts: make the job directory, copy the template in with os.system,
change into the directory. -/
def jobPreEvs (input_file directory : String) (i : Nat) : List Ev :=
  [Ev.mkdir (os_path_join directory ("job_" ++ pyFormat04d i)),
   Ev.systemCp ("cp " ++ input_file ++ " " ++ os_path_join directory ("job_" ++ pyFormat04d i)),
   Ev.chdir (os_path_join directory ("job_" ++ pyFormat04d i))]

/-- The submit description launch_jobs builds for job i: the per-job input
and script names are passed to generate_submit_description along with the
resource and transfer settings.  The queue is not among them. -/
def condorJobDescription (mem : String) (ncpu disk time : Nat)
    (transfer_files output error log : String) (stripped : String) (i : Nat) :
    SubmitDescription :=
  generate_submit_description i (generate_input_name stripped i)
    ("job_" ++ pyFormat04d i ++ ".sh") mem ncpu disk time transfer_files output error log

/-- The dry-run log line of launch_jobs_htcondor.py:118. -/
def condorDryMsg (mem : String) (ncpu disk time : Nat)
    (transfer_files output error log : String) (stripped : String) (i : Nat) : String :=
  "Dry run: condor_submit "
    ++ descrRepr (condorJobDescription mem ncpu disk time transfer_files output error log stripped i)

/-- Submission-step events of one HTCondor iteration: the dry-run branch
only logs the would-be condor_submit, the live branch submits through the
schedd and logs the assigned cluster id. -/
def condorSubEvs (mem : String) (ncpu disk time : Nat) (dry_run : Bool)
    (transfer_files output error log : String) (env : CondorEnv)
    (stripped : String) (i : Nat) : List Ev :=
  if dry_run then
    [Ev.logInfo (condorDryMsg mem ncpu disk time transfer_files output error log stripped i)]
  else
    [Ev.scheddSubmit (condorJobDescription mem ncpu disk time transfer_files output error log stripped i),
     Ev.logInfo ("Submitted job " ++ Nat.repr (env.cluster i))]

/-- Events of one complete HTCondor iteration. -/
def condorOkEvs (input_file custom_exe mem : String) (ncpu disk time : Nat)
    (dry_run : Bool) (transfer_files output error log : String)
    (env : CondorEnv) (fluka_path stripped directory : String) (i : Nat) : List Ev :=
  jobPreEvs input_file directory i
    ++ [Ev.writeScript ("job_" ++ pyFormat04d i ++ ".sh")
          (condor_script_content (fluka_command fluka_path custom_exe)
            (generate_input_name stripped i))]
    ++ condorSubEvs mem ncpu disk time dry_run transfer_files output error log env stripped i
    ++ [Ev.chdir ("../..")]

/-- Working-directory effect of one completed iteration. -/
def stepCwd (directory : String) (cwd : List String) (i : Nat) : List String :=
  applyChdir (applyChdir cwd (os_path_join directory ("job_" ++ pyFormat04d i))) ("../..")

/-- One iteration of the HTCondor loop (launch_jobs_htcondor.py:106-123).
When base.inp cannot be opened, generate_input raises and the raise
propagates: the trailing chdir never runs and the loop is abandoned. -/
def condorIter (input_file custom_exe mem : String) (ncpu disk time : Nat)
    (dry_run : Bool) (transfer_files output error log : String)
    (env : CondorEnv) (fluka_path stripped directory : String) (i : Nat)
    (st : RunState) : Except RunState RunState :=
  if env.mutOk i then
    Except.ok ⟨st.events ++ condorOkEvs input_file custom_exe mem ncpu disk time dry_run
        transfer_files output error log env fluka_path stripped directory i,
      stepCwd directory st.cwd i⟩
  else
    Except.error ⟨st.events ++ jobPreEvs input_file directory i,
      applyChdir st.cwd (os_path_join directory ("job_" ++ pyFormat04d i))⟩

/-- The for loop over job indices; a raised iteration aborts the batch. -/
def condorLoop (input_file custom_exe mem : String) (ncpu disk time : Nat)
    (dry_run : Bool) (transfer_files output error log : String)
    (env : CondorEnv) (fluka_path stripped directory : String) :
    List Nat → RunState → Except RunState RunState
  | [], st => Except.ok st
  | i :: rest, st =>
    match condorIter input_file custom_exe mem ncpu disk time dry_run transfer_files
        output error log env fluka_path stripped directory i st with
    | Except.ok st2 => condorLoop input_file custom_exe mem ncpu disk time dry_run
        transfer_files output error log env fluka_path stripped directory rest st2
    | Except.error st2 => Except.error st2

/-- Embedding of launch_jobs of launch_jobs_htcondor.py, with the exact
parameter list of the source.  The queue parameter is accepted and, as in
the source, never used.  The schedd connection is only opened outside
dry-run mode, before the loop. -/
def condorLaunchJobs (input_file : String) (job_number : Nat)
    (custom_exe queue mem : String) (ncpu disk time : Nat) (dry_run : Bool)
    (output_dir : Option String) (transfer_files output error log : String)
    (env : CondorEnv) (fluka_path : String) (st0 : RunState) :
    Except RunState RunState :=
  let stripped := stripped_name input_file
  let directory := allocateDir env.ex (baseDirName input_file output_dir) env.fuel
  let st1 : RunState := ⟨st0.events ++ [Ev.mkdir directory], st0.cwd⟩
  let st2 : RunState := if dry_run then st1 else ⟨st1.events ++ [Ev.scheddInit], st1.cwd⟩
  condorLoop input_file custom_exe mem ncpu disk time dry_run transfer_files output
    error log env fluka_path stripped directory (List.range' 1 job_number) st2

/-! ## LSF orchestrator (launch_jobs_lsf.py launch_jobs) -/

/-- The per-job failure print of launch_jobs_lsf.py:113.  Note that the
source interpolates job_number, the total batch size, not the loop index. -/
def lsf_submission_failed_msg (job_number : Nat) (stderr : String) : String :=
  "Job " ++ Nat.repr job_number ++ " submission failed: " ++ pyStrip stderr

/-- The per-job success print of launch_jobs_lsf.py:111 (same interpolation
of job_number). -/
def lsf_submission_ok_msg (job_number : Nat) (stdout : String) : String :=
  "Job " ++ Nat.repr job_number ++ " " ++ pyStrip stdout

/-- Submission-step events of one LSF iteration, reached only if the
script was rendered: dry-run logs the bsub command, the live branch runs
bsub and prints the outcome keyed on the exit code, continuing either way. -/
def lsfSubEvs (dry_run : Bool) (job_number : Nat) (env : CliEnv) (i : Nat) : List Ev :=
  if dry_run then [Ev.logInfo ("Dry run: bsub < ./job_" ++ pyFormat04d i ++ ".sh")]
  else if env.subRC i = 0 then
    [Ev.runCmd ("bsub < ./job_" ++ pyFormat04d i ++ ".sh"),
     Ev.printOut (lsf_submission_ok_msg job_number (env.subOut i))]
  else
    [Ev.runCmd ("bsub < ./job_" ++ pyFormat04d i ++ ".sh"),
     Ev.printOut (lsf_submission_failed_msg job_number (env.subErr i))]

/-- One iteration of the LSF loop (launch_jobs_lsf.py:96-115).  After the
seed mutation, generate_sh calls substitute on a template whose queue
placeholder has no supplied value, so substitute raises KeyError and the
raise propagates out of the iteration before any script is written or any
submission is attempted. -/
def lsfIter (input_file custom_exe mem : String) (ntasks : Nat) (time : String)
    (dry_run : Bool) (job_number : Nat) (env : CliEnv)
    (fluka_path stripped directory : String) (i : Nat) (st : RunState) :
    Except RunState RunState :=
  if env.mutOk i then
    match lsf_generate_sh_outcome with
    | Except.error _ =>
      Except.error ⟨st.events ++ jobPreEvs input_file directory i,
        applyChdir st.cwd (os_path_join directory ("job_" ++ pyFormat04d i))⟩
    | Except.ok _ =>
      Except.ok ⟨st.events ++ jobPreEvs input_file directory i
          ++ lsfSubEvs dry_run job_number env i ++ [Ev.chdir ("../..")],
        stepCwd directory st.cwd i⟩
  else
    Except.error ⟨st.events ++ jobPreEvs input_file directory i,
      applyChdir st.cwd (os_path_join directory ("job_" ++ pyFormat04d i))⟩

/-- The for loop of the LSF variant. -/
def lsfLoop (input_file custom_exe mem : String) (ntasks : Nat) (time : String)
    (dry_run : Bool) (job_number : Nat) (env : CliEnv)
    (fluka_path stripped directory : String) :
    List Nat → RunState → Except RunState RunState
  | [], st => Except.ok st
  | i :: rest, st =>
    match lsfIter input_file custom_exe mem ntasks time dry_run job_number env
        fluka_path stripped directory i st with
    | Except.ok st2 => lsfLoop input_file custom_exe mem ntasks time dry_run job_number
        env fluka_path stripped directory rest st2
    | Except.error st2 => Except.error st2

/-- Embedding of launch_jobs of launch_jobs_lsf.py with the parameter list
of the source; queue is accepted and never used inside launch_jobs. -/
def lsfLaunchJobs (input_file : String) (job_number : Nat)
    (custom_exe queue mem : String) (ntasks : Nat) (time : String)
    (dry_run : Bool) (output_dir : Option String) (env : CliEnv)
    (fluka_path : String) (st0 : RunState) : Except RunState RunState :=
  let stripped := stripped_name input_file
  let directory := allocateDir env.ex (baseDirName input_file output_dir) env.fuel
  let st1 : RunState := ⟨st0.events ++ [Ev.mkdir directory], st0.cwd⟩
  lsfLoop input_file custom_exe mem ntasks time dry_run job_number env fluka_path
    stripped directory (List.range' 1 job_number) st1

/-! ## Task-spooler orchestrator (scripts/launch_jobs_ts.py launch_jobs) -/

/-- The per-job failure print of launch_jobs_ts.py:72; this variant
interpolates the loop index i. -/
def ts_submission_failed_msg (i : Nat) (stderr : String) : String :=
  "Job " ++ Nat.repr i ++ " submission failed: " ++ pyStrip stderr

/-- The per-job success print of launch_jobs_ts.py:70. -/
def ts_submission_ok_msg (i : Nat) (stdout : String) : String :=
  "Job " ++ Nat.repr i ++ " submitted: " ++ pyStrip stdout

/-- The dry-run log line of launch_jobs_ts.py:66. -/
def tsDryMsg (custom_exe stripped : String) (i : Nat) : String :=
  "Dry run: ts " ++ ts_fluka_command custom_exe (generate_input_name stripped i)

/-- Submission-step events of one task-spooler iteration. -/
def tsSubEvs (custom_exe stripped : String) (dry_run : Bool) (env : CliEnv)
    (i : Nat) : List Ev :=
  let cmd := ts_fluka_command custom_exe (generate_input_name stripped i)
  if dry_run then [Ev.logInfo (tsDryMsg custom_exe stripped i)]
  else if env.subRC i = 0 then
    [Ev.runCmd ("ts " ++ cmd), Ev.printOut (ts_submission_ok_msg i (env.subOut i))]
  else
    [Ev.runCmd ("ts " ++ cmd), Ev.printOut (ts_submission_failed_msg i (env.subErr i))]

/-- Events of one complete task-spooler iteration. -/
def tsOkEvs (input_file custom_exe stripped directory : String) (dry_run : Bool)
    (env : CliEnv) (i : Nat) : List Ev :=
  jobPreEvs input_file directory i ++ tsSubEvs custom_exe stripped dry_run env i
    ++ [Ev.chdir ("../..")]

/-- One iteration of the task-spooler loop (launch_jobs_ts.py:55-74): no
script file is produced, the command line is submitted directly; a failed
submission is printed and the loop continues, a failed mutation raises. -/
def tsIter (input_file custom_exe : String) (dry_run : Bool) (env : CliEnv)
    (stripped directory : String) (i : Nat) (st : RunState) :
    Except RunState RunState :=
  if env.mutOk i then
    Except.ok ⟨st.events ++ tsOkEvs input_file custom_exe stripped directory dry_run env i,
      stepCwd directory st.cwd i⟩
  else
    Except.error ⟨st.events ++ jobPreEvs input_file directory i,
      applyChdir st.cwd (os_path_join directory ("job_" ++ pyFormat04d i))⟩

/-- The for loop of the task-spooler variant. -/
def tsLoop (input_file custom_exe : String) (dry_run : Bool) (env : CliEnv)
    (stripped directory : String) : List Nat → RunState → Except RunState RunState
  | [], st => Except.ok st
  | i :: rest, st =>
    match tsIter input_file custom_exe dry_run env stripped directory i st with
    | Except.ok st2 => tsLoop input_file custom_exe dry_run env stripped directory rest st2
    | Except.error st2 => Except.error st2

/-- Embedding of launch_jobs of scripts/launch_jobs_ts.py with the
parameter list of the source. -/
def tsLaunchJobs (input_file : String) (job_number : Nat) (custom_exe : String)
    (dry_run : Bool) (output_dir : Option String) (env : CliEnv)
    (st0 : RunState) : Except RunState RunState :=
  let stripped := stripped_name input_file
  let directory := allocateDir env.ex (baseDirName input_file output_dir) env.fuel
  let st1 : RunState := ⟨st0.events ++ [Ev.mkdir directory], st0.cwd⟩
  tsLoop input_file custom_exe dry_run env stripped directory
    (List.range' 1 job_number) st1

/-! ## Helper lemmas -/

theorem padZeros_length (w : Nat) (s : String) :
    (padZeros w s).length = (w - s.length) + s.length := by
  rw [padZeros, String.length_mk, List.length_append, List.length_replicate]
  rfl

theorem padZeros_eq_of_le (w : Nat) (s : String) (h : w ≤ s.length) :
    padZeros w s = s := by
  unfold padZeros
  rw [Nat.sub_eq_zero_of_le h]
  rfl

theorem four_le_pyFormat04d_length (i : Nat) : 4 ≤ (pyFormat04d i).length := by
  rw [pyFormat04d, padZeros_length]
  omega

theorem generate_input_name_ne (base : String) (i : Nat) :
    generate_input_name base i ≠ base ++ ".inp" := by
  intro h
  have hlen := congrArg String.length h
  have h4 := four_le_pyFormat04d_length i
  have h1 : ("_" : String).length = 1 := rfl
  have h2 : (".inp" : String).length = 4 := rfl
  simp only [generate_input_name, String.length_append, h1, h2] at hlen
  omega

theorem jobName_length (i : Nat) : 8 ≤ ("job_" ++ pyFormat04d i).length := by
  rw [String.length_append]
  have h1 : ("job_" : String).length = 4 := rfl
  have h4 := four_le_pyFormat04d_length i
  omega

theorem jobName_ne_parent (i : Nat) : ("job_" ++ pyFormat04d i) ≠ ".." := by
  intro h
  have hlen := congrArg String.length h
  have h8 := jobName_length i
  have h2 : (".." : String).length = 2 := rfl
  omega

theorem jobName_ne_dot (i : Nat) : ("job_" ++ pyFormat04d i) ≠ "." := by
  intro h
  have hlen := congrArg String.length h
  have h8 := jobName_length i
  have h1 : ("." : String).length = 1 := rfl
  omega

theorem jobName_ne_empty (i : Nat) : ("job_" ++ pyFormat04d i) ≠ "" := by
  intro h
  have hlen := congrArg String.length h
  have h8 := jobName_length i
  have h0 : ("" : String).length = 0 := rfl
  omega

theorem replaceFirstMarker_of_no_marker (n : String) (data : List String)
    (h : ∀ x ∈ data, lineHasMarker x = false) :
    replaceFirstMarker n data = data := by
  induction data with
  | nil => rfl
  | cons l ls ih =>
    have hl : lineHasMarker l = false := h l (List.mem_cons_self l ls)
    have ht : replaceFirstMarker n ls = ls :=
      ih (fun x hx => h x (List.mem_cons_of_mem l hx))
    simp [replaceFirstMarker, hl, ht]

theorem replaceFirstMarker_spec (n : String) (pre : List String) (l : String)
    (post : List String) (hpre : ∀ x ∈ pre, lineHasMarker x = false)
    (hl : lineHasMarker l = true) :
    replaceFirstMarker n (pre ++ l :: post) = pre ++ n :: post := by
  induction pre with
  | nil => simp [replaceFirstMarker, hl]
  | cons a pre ih =>
    have ha : lineHasMarker a = false := hpre a (List.mem_cons_self a pre)
    have ht := ih (fun x hx => hpre x (List.mem_cons_of_mem a hx))
    simp [replaceFirstMarker, ha, ht]

theorem fsLookup_fsErase (fs : FS) (n m : String) :
    fsLookup (fsErase fs n) m = if m = n then none else fsLookup fs m := by
  induction fs with
  | nil => simp [fsErase, fsLookup]
  | cons p rest ih =>
    obtain ⟨k, c⟩ := p
    by_cases hk : k = n
    · subst hk
      by_cases hm : m = k
      · subst hm
        simp [fsErase, fsLookup, ih]
      · have hk2 : ¬ (k = m) := fun hh => hm hh.symm
        simp [fsErase, fsLookup, ih, hm, hk2]
    · by_cases hm : k = m
      · subst hm
        have hmn : ¬ (k = n) := hk
        simp [fsErase, fsLookup, hk, hmn]
      · simp [fsErase, fsLookup, hk, hm, ih]

theorem fsLookup_fsSet (fs : FS) (n m : String) (c : List String) :
    fsLookup (fsSet fs n c) m = if m = n then some c else fsLookup fs m := by
  by_cases h : n = m
  · subst h
    simp [fsSet, fsLookup]
  · have h2 : ¬ (m = n) := fun hh => h hh.symm
    simp [fsSet, fsLookup, h, h2, fsLookup_fsErase]

theorem applyChdir_two (cwd : List String) (a b : String)
    (hpc : pathComponents (os_path_join a b) = [a, b])
    (ha1 : a ≠ "..") (ha2 : a ≠ ".") (ha3 : a ≠ "")
    (hb1 : b ≠ "..") (hb2 : b ≠ ".") (hb3 : b ≠ "") :
    applyChdir cwd (os_path_join a b) = cwd ++ [a, b] := by
  rw [applyChdir, hpc]
  simp [chdirStep, ha1, ha2, ha3, hb1, hb2, hb3]

theorem applyChdir_parent2 (cwd : List String) (a b : String) :
    applyChdir ((cwd ++ [a]) ++ [b]) ("../..") = cwd := by
  have h : pathComponents ("../..") = ["..", ".."] := by decide
  rw [applyChdir, h]
  simp [chdirStep, List.dropLast_concat]

theorem stepCwd_restore (directory : String) (cwd : List String) (i : Nat)
    (hpc : pathComponents (os_path_join directory ("job_" ++ pyFormat04d i))
      = [directory, "job_" ++ pyFormat04d i])
    (hd1 : directory ≠ "..") (hd2 : directory ≠ ".") (hd3 : directory ≠ "") :
    stepCwd directory cwd i = cwd := by
  rw [stepCwd, applyChdir_two cwd _ _ hpc hd1 hd2 hd3
    (jobName_ne_parent i) (jobName_ne_dot i) (jobName_ne_empty i)]
  have hsplit : cwd ++ [directory, "job_" ++ pyFormat04d i]
      = (cwd ++ [directory]) ++ ["job_" ++ pyFormat04d i] := by simp
  rw [hsplit, applyChdir_parent2]

theorem digitChar_eq_star (n : Nat) (h16 : 16 ≤ n) : Nat.digitChar n = '*' := by
  unfold Nat.digitChar
  repeat rw [if_neg (by omega)]

theorem digitChar_ne_slash (n : Nat) : Nat.digitChar n ≠ '/' := by
  rcases Nat.lt_or_ge n 16 with h16 | h16
  · interval_cases n <;> decide
  · rw [digitChar_eq_star n h16]
    decide

theorem toDigitsCore_no_slash (b : Nat) :
    ∀ (fuel n : Nat) (ds : List Char), '/' ∉ ds →
      '/' ∉ Nat.toDigitsCore b fuel n ds := by
  intro fuel
  induction fuel with
  | zero =>
    intro n ds h
    simpa [Nat.toDigitsCore] using h
  | succ fuel ih =>
    intro n ds h
    have hcons : '/' ∉ Nat.digitChar (n % b) :: ds := by
      intro hmem
      rcases List.mem_cons.mp hmem with h1 | h2
      · exact digitChar_ne_slash (n % b) h1.symm
      · exact h h2
    simp only [Nat.toDigitsCore]
    split
    · exact hcons
    · exact ih (n / b) (Nat.digitChar (n % b) :: ds) hcons

theorem repr_no_slash (n : Nat) : '/' ∉ (Nat.repr n).data := by
  have h : (Nat.repr n).data = Nat.toDigits 10 n := rfl
  rw [h, Nat.toDigits]
  exact toDigitsCore_no_slash 10 (n + 1) n [] (by simp)

theorem pyFormat04d_no_slash (i : Nat) : '/' ∉ (pyFormat04d i).data := by
  intro h
  have h2 : '/' ∈ List.replicate (4 - (Nat.repr i).length) '0' ++ (Nat.repr i).data := h
  rcases List.mem_append.mp h2 with h3 | h3
  · exact absurd (List.eq_of_mem_replicate h3) (by decide)
  · exact repr_no_slash i h3

theorem jobName_no_slash (i : Nat) : '/' ∉ ("job_" ++ pyFormat04d i).data := by
  intro h
  rw [String.data_append] at h
  rcases List.mem_append.mp h with h1 | h1
  · exact absurd h1 (by decide)
  · exact pyFormat04d_no_slash i h1

theorem splitOnSlash_no_slash (l : List Char) (h : '/' ∉ l) :
    splitOnSlash l = [l] := by
  induction l with
  | nil => rfl
  | cons c rest ih =>
    have hc : ¬ (c = '/') := by
      intro hh
      subst hh
      exact h (List.mem_cons_self _ _)
    have ht : splitOnSlash rest = [rest] :=
      ih (fun hm => h (List.mem_cons_of_mem c hm))
    simp [splitOnSlash, hc, ht]

theorem splitOnSlash_append (d j : List Char) (hd : '/' ∉ d) :
    splitOnSlash (d ++ '/' :: j) = d :: splitOnSlash j := by
  induction d with
  | nil => simp [splitOnSlash]
  | cons c rest ih =>
    have hc : ¬ (c = '/') := by
      intro hh
      subst hh
      exact hd (List.mem_cons_self _ _)
    have ht := ih (fun hm => hd (List.mem_cons_of_mem c hm))
    simp [splitOnSlash, hc, ht]

theorem pathComponents_single (s : String) (h : '/' ∉ s.data) :
    pathComponents s = [s] := by
  rw [pathComponents, splitOnSlash_no_slash s.data h]
  rfl

theorem pathComponents_join (a b : String) (ha : '/' ∉ a.data)
    (hb : '/' ∉ b.data) :
    pathComponents (os_path_join a b) = [a, b] := by
  have hdata : (os_path_join a b).data = a.data ++ '/' :: b.data := by
    show ((a ++ "/") ++ b).data = _
    rw [String.data_append, String.data_append]
    simp
  rw [pathComponents, hdata, splitOnSlash_append a.data b.data ha,
    splitOnSlash_no_slash b.data hb]
  rfl

theorem applyChdir_single (cwd : List String) (c : String) (h : '/' ∉ c.data)
    (h1 : c ≠ "..") (h2 : c ≠ ".") (h3 : c ≠ "") :
    applyChdir cwd c = cwd ++ [c] := by
  rw [applyChdir, pathComponents_single c h]
  simp [chdirStep, h1, h2, h3]

theorem replayCwd_append (cwd : List String) (a b : List Ev) :
    replayCwd cwd (a ++ b) = replayCwd (replayCwd cwd a) b := by
  induction a generalizing cwd with
  | nil => rfl
  | cons e rest ih => cases e <;> simp [replayCwd, ih]

theorem resolvedMkdirs_append (cwd : List String) (a b : List Ev) :
    resolvedMkdirs cwd (a ++ b)
      = resolvedMkdirs cwd a ++ resolvedMkdirs (replayCwd cwd a) b := by
  induction a generalizing cwd with
  | nil => rfl
  | cons e rest ih => cases e <;> simp [resolvedMkdirs, replayCwd, ih]

theorem allocateLoop_eq (ex : String → Bool) (base : String) :
    ∀ (fuel k k0 : Nat), k ≤ k0 → k0 - k ≤ fuel →
      ex (nameCandidate base k0) = false →
      (∀ j, k ≤ j → j < k0 → ex (nameCandidate base j) = true) →
      allocateLoop ex base fuel k = nameCandidate base k0 := by
  intro fuel
  induction fuel with
  | zero =>
    intro k k0 hk hf h0 _
    have hkk : k = k0 := by omega
    subst hkk
    rfl
  | succ fuel ih =>
    intro k k0 hk hf h0 hb
    by_cases hkk : k = k0
    · subst hkk
      simp [allocateLoop, h0]
    · have hlt : k < k0 := by omega
      have hex : ex (nameCandidate base k) = true := hb k le_rfl hlt
      simp only [allocateLoop, hex, if_true]
      exact ih (k + 1) k0 (by omega) (by omega) h0 (fun j hj1 hj2 => hb j (by omega) hj2)

theorem allocateDir_eq (ex : String → Bool) (base : String) (fuel k0 : Nat)
    (hf : k0 ≤ fuel) (h0 : ex (nameCandidate base k0) = false)
    (hb : ∀ j, j < k0 → ex (nameCandidate base j) = true) :
    allocateDir ex base fuel = nameCandidate base k0 :=
  allocateLoop_eq ex base fuel 0 k0 (Nat.zero_le k0) (by omega) h0
    (fun j _ hj2 => hb j hj2)

theorem evConcat_filter_nil (p : Ev → Bool) (f : Nat → List Ev) (idxs : List Nat)
    (h : ∀ i, (f i).filter p = []) : (evConcat f idxs).filter p = [] := by
  induction idxs with
  | nil => rfl
  | cons i rest ih => simp [evConcat, List.filter_append, h, ih]

theorem evConcat_filter_map (p : Ev → Bool) (f : Nat → List Ev) (g : Nat → Ev)
    (idxs : List Nat) (h : ∀ i, (f i).filter p = [g i]) :
    (evConcat f idxs).filter p = idxs.map g := by
  induction idxs with
  | nil => rfl
  | cons i rest ih => simp [evConcat, List.filter_append, h, ih]

theorem mem_evConcat (f : Nat → List Ev) (idxs : List Nat) (i : Nat) (e : Ev)
    (hi : i ∈ idxs) (he : e ∈ f i) : e ∈ evConcat f idxs := by
  induction idxs with
  | nil => cases hi
  | cons j rest ih =>
    rcases List.mem_cons.mp hi with h1 | h2
    · subst h1
      exact List.mem_append.mpr (Or.inl he)
    · exact List.mem_append.mpr (Or.inr (ih h2))

/-! ## Per-iteration trace facts -/

theorem jobPreEvs_filter_sub (f d : String) (i : Nat) :
    (jobPreEvs f d i).filter isSubmissionEv = [] := rfl

theorem jobPreEvs_filter_log (f d : String) (i : Nat) :
    (jobPreEvs f d i).filter isLogEv = [] := rfl

theorem jobPreEvs_filter_mkdir (f d : String) (i : Nat) :
    (jobPreEvs f d i).filter isMkdirEv
      = [Ev.mkdir (os_path_join d ("job_" ++ pyFormat04d i))] := rfl

theorem condorOkEvs_dry_filter_sub (input_file custom_exe mem : String)
    (ncpu disk time : Nat) (transfer_files output error log : String)
    (env : CondorEnv) (fluka_path stripped directory : String) (i : Nat) :
    (condorOkEvs input_file custom_exe mem ncpu disk time true transfer_files
      output error log env fluka_path stripped directory i).filter isSubmissionEv
      = [] := rfl

theorem condorOkEvs_dry_filter_log (input_file custom_exe mem : String)
    (ncpu disk time : Nat) (transfer_files output error log : String)
    (env : CondorEnv) (fluka_path stripped directory : String) (i : Nat) :
    (condorOkEvs input_file custom_exe mem ncpu disk time true transfer_files
      output error log env fluka_path stripped directory i).filter isLogEv
      = [Ev.logInfo (condorDryMsg mem ncpu disk time transfer_files output error log
          stripped i)] := rfl

theorem condorOkEvs_filter_mkdir (input_file custom_exe mem : String)
    (ncpu disk time : Nat) (dry_run : Bool) (transfer_files output error log : String)
    (env : CondorEnv) (fluka_path stripped directory : String) (i : Nat) :
    (condorOkEvs input_file custom_exe mem ncpu disk time dry_run transfer_files
      output error log env fluka_path stripped directory i).filter isMkdirEv
      = [Ev.mkdir (os_path_join directory ("job_" ++ pyFormat04d i))] := by
  cases dry_run <;> rfl

theorem tsOkEvs_dry_filter_sub (f ce s d : String) (env : CliEnv) (i : Nat) :
    (tsOkEvs f ce s d true env i).filter isSubmissionEv = [] := rfl

theorem tsOkEvs_dry_filter_log (f ce s d : String) (env : CliEnv) (i : Nat) :
    (tsOkEvs f ce s d true env i).filter isLogEv
      = [Ev.logInfo (tsDryMsg ce s i)] := rfl

theorem tsOkEvs_filter_mkdir (f ce s d : String) (dry_run : Bool) (env : CliEnv)
    (i : Nat) :
    (tsOkEvs f ce s d dry_run env i).filter isMkdirEv
      = [Ev.mkdir (os_path_join d ("job_" ++ pyFormat04d i))] := by
  cases dry_run with
  | true => rfl
  | false =>
    by_cases h : env.subRC i = 0 <;>
      simp [tsOkEvs, tsSubEvs, jobPreEvs, h, List.filter_append, isMkdirEv]

theorem ts_failed_print_mem (f ce s d : String) (env : CliEnv) (i : Nat)
    (h : ¬ (env.subRC i = 0)) :
    Ev.printOut (ts_submission_failed_msg i (env.subErr i))
      ∈ tsOkEvs f ce s d false env i := by
  simp [tsOkEvs, tsSubEvs, h]

theorem condorOkEvs_resolvedMkdirs (input_file custom_exe mem : String)
    (ncpu disk time : Nat) (dry_run : Bool) (transfer_files output error log : String)
    (env : CondorEnv) (fluka_path stripped directory : String) (i : Nat)
    (cwd : List String) :
    resolvedMkdirs cwd (condorOkEvs input_file custom_exe mem ncpu disk time dry_run
      transfer_files output error log env fluka_path stripped directory i)
      = [applyChdir cwd (os_path_join directory ("job_" ++ pyFormat04d i))] := by
  cases dry_run <;>
    simp [condorOkEvs, jobPreEvs, condorSubEvs, resolvedMkdirs]

theorem condorOkEvs_replayCwd (input_file custom_exe mem : String)
    (ncpu disk time : Nat) (dry_run : Bool) (transfer_files output error log : String)
    (env : CondorEnv) (fluka_path stripped directory : String) (i : Nat)
    (cwd : List String) :
    replayCwd cwd (condorOkEvs input_file custom_exe mem ncpu disk time dry_run
      transfer_files output error log env fluka_path stripped directory i)
      = stepCwd directory cwd i := by
  cases dry_run <;>
    simp [condorOkEvs, jobPreEvs, condorSubEvs, replayCwd, stepCwd]

theorem evConcat_resolvedMkdirs_restore (f : Nat → List Ev) (g : Nat → List String)
    (cwd : List String) (idxs : List Nat)
    (hres : ∀ i, resolvedMkdirs cwd (f i) = [g i])
    (hrep : ∀ i, replayCwd cwd (f i) = cwd) :
    resolvedMkdirs cwd (evConcat f idxs) = idxs.map g := by
  induction idxs with
  | nil => rfl
  | cons i rest ih =>
    simp only [evConcat]
    rw [resolvedMkdirs_append, hres i, hrep i, ih]
    rfl

/-! ## Loop-level lemmas -/

theorem condorLoop_ok_of_mutOk (input_file custom_exe mem : String)
    (ncpu disk time : Nat) (dry_run : Bool) (transfer_files output error log : String)
    (env : CondorEnv) (fluka_path stripped directory : String)
    (hm : ∀ i, env.mutOk i = true) :
    ∀ (idxs : List Nat) (st : RunState),
      condorLoop input_file custom_exe mem ncpu disk time dry_run transfer_files
        output error log env fluka_path stripped directory idxs st
      = Except.ok ⟨st.events ++ evConcat (condorOkEvs input_file custom_exe mem ncpu
          disk time dry_run transfer_files output error log env fluka_path stripped
          directory) idxs, idxs.foldl (stepCwd directory) st.cwd⟩ := by
  intro idxs
  induction idxs with
  | nil =>
    intro st
    simp [condorLoop, evConcat]
  | cons i rest ih =>
    intro st
    have hit : condorIter input_file custom_exe mem ncpu disk time dry_run
        transfer_files output error log env fluka_path stripped directory i st
        = Except.ok ⟨st.events ++ condorOkEvs input_file custom_exe mem ncpu disk time
            dry_run transfer_files output error log env fluka_path stripped directory i,
          stepCwd directory st.cwd i⟩ := by
      simp [condorIter, hm i]
    simp only [condorLoop, hit]
    rw [ih]
    simp [evConcat, List.append_assoc]

theorem condorLoop_dry_no_submission (input_file custom_exe mem : String)
    (ncpu disk time : Nat) (transfer_files output error log : String)
    (env : CondorEnv) (fluka_path stripped directory : String) :
    ∀ (idxs : List Nat) (st : RunState),
      (resultState (condorLoop input_file custom_exe mem ncpu disk time true
        transfer_files output error log env fluka_path stripped directory idxs
        st)).events.filter isSubmissionEv
      = st.events.filter isSubmissionEv := by
  intro idxs
  induction idxs with
  | nil => intro st; rfl
  | cons i rest ih =>
    intro st
    cases hmo : env.mutOk i with
    | true =>
      have hit : condorIter input_file custom_exe mem ncpu disk time true
          transfer_files output error log env fluka_path stripped directory i st
          = Except.ok ⟨st.events ++ condorOkEvs input_file custom_exe mem ncpu disk
              time true transfer_files output error log env fluka_path stripped
              directory i, stepCwd directory st.cwd i⟩ := by
        simp [condorIter, hmo]
      simp only [condorLoop, hit]
      rw [ih]
      simp [List.filter_append, condorOkEvs_dry_filter_sub]
    | false =>
      have hit : condorIter input_file custom_exe mem ncpu disk time true
          transfer_files output error log env fluka_path stripped directory i st
          = Except.error ⟨st.events ++ jobPreEvs input_file directory i,
            applyChdir st.cwd (os_path_join directory ("job_" ++ pyFormat04d i))⟩ := by
        simp [condorIter, hmo]
      simp only [condorLoop, hit]
      simp [resultState, List.filter_append, jobPreEvs_filter_sub]

theorem tsLoop_ok_of_mutOk (input_file custom_exe : String) (dry_run : Bool)
    (env : CliEnv) (stripped directory : String) (hm : ∀ i, env.mutOk i = true) :
    ∀ (idxs : List Nat) (st : RunState),
      tsLoop input_file custom_exe dry_run env stripped directory idxs st
      = Except.ok ⟨st.events ++ evConcat (tsOkEvs input_file custom_exe stripped
          directory dry_run env) idxs, idxs.foldl (stepCwd directory) st.cwd⟩ := by
  intro idxs
  induction idxs with
  | nil =>
    intro st
    simp [tsLoop, evConcat]
  | cons i rest ih =>
    intro st
    have hit : tsIter input_file custom_exe dry_run env stripped directory i st
        = Except.ok ⟨st.events ++ tsOkEvs input_file custom_exe stripped directory
            dry_run env i, stepCwd directory st.cwd i⟩ := by
      simp [tsIter, hm i]
    simp only [tsLoop, hit]
    rw [ih]
    simp [evConcat, List.append_assoc]

theorem tsLoop_dry_no_submission (input_file custom_exe : String) (env : CliEnv)
    (stripped directory : String) :
    ∀ (idxs : List Nat) (st : RunState),
      (resultState (tsLoop input_file custom_exe true env stripped directory idxs
        st)).events.filter isSubmissionEv
      = st.events.filter isSubmissionEv := by
  intro idxs
  induction idxs with
  | nil => intro st; rfl
  | cons i rest ih =>
    intro st
    cases hmo : env.mutOk i with
    | true =>
      have hit : tsIter input_file custom_exe true env stripped directory i st
          = Except.ok ⟨st.events ++ tsOkEvs input_file custom_exe stripped directory
              true env i, stepCwd directory st.cwd i⟩ := by
        simp [tsIter, hmo]
      simp only [tsLoop, hit]
      rw [ih]
      simp [List.filter_append, tsOkEvs_dry_filter_sub]
    | false =>
      have hit : tsIter input_file custom_exe true env stripped directory i st
          = Except.error ⟨st.events ++ jobPreEvs input_file directory i,
            applyChdir st.cwd (os_path_join directory ("job_" ++ pyFormat04d i))⟩ := by
        simp [tsIter, hmo]
      simp only [tsLoop, hit]
      simp [resultState, List.filter_append, jobPreEvs_filter_sub]

/-! ## Claim theorems -/

/-- Claim C4, counterexample.  The claim asserts that every written seed is
strictly below 90 000 000 and that the record is the marker token directly
followed by the literal 1. and the aligned seed.  Both parts fail on the
code: random.randint(1, int(9E7)) is inclusive, so 90 000 000 itself is a
possible seed, and the written line carries ten spaces between the marker
and the literal 1. -/
theorem C4_counterexample :
    randintValid 90000000
    ∧ ¬ (90000000 < 90000000)
    ∧ new_randomiz 42 ≠ "RANDOMIZ" ++ "1." ++ rightAlign 10 (Nat.repr 42) ++ "\n" := by
  refine ⟨by decide, by decide, by decide⟩

/-- Claim C4 as amended: every seed record the mutator writes is a single
line consisting of the marker token, then ten spaces, then the literal 1.,
then the seed right-aligned in a width-10 field, terminated by a newline,
where the seed is an integer in the CLOSED range [1, 90 000 000]. -/
theorem C4_seed_record_format (s : Nat) (h : randintValid s) :
    new_randomiz s = "RANDOMIZ" ++ "          " ++ "1."
        ++ rightAlign 10 (Nat.repr s) ++ "\n"
    ∧ 1 ≤ s ∧ s ≤ 90000000 :=
  ⟨rfl, h.1, h.2⟩

/-- Witness for C4_seed_record_format at the concrete seed 12345. -/
theorem C4_seed_record_format_witness :
    randintValid 12345
    ∧ (new_randomiz 12345 = "RANDOMIZ" ++ "          " ++ "1."
          ++ rightAlign 10 (Nat.repr 12345) ++ "\n"
        ∧ 1 ≤ 12345 ∧ 12345 ≤ 90000000) :=
  ⟨by decide, C4_seed_record_format 12345 (by decide)⟩

/-- Claim C5: when the template has at least one marker line, exactly the
first such line (in file order) is replaced by the fresh seed record; every
line before it (all marker-free) and every line after it — later marker
lines included, since post is unconstrained — is kept unchanged, and the
line count is preserved. -/
theorem C5_first_match_replacement (seed : Nat) (pre : List String) (l : String)
    (post : List String) (hpre : ∀ x ∈ pre, lineHasMarker x = false)
    (hl : lineHasMarker l = true) :
    generate_input_lines seed (pre ++ l :: post) = pre ++ new_randomiz seed :: post
    ∧ (generate_input_lines seed (pre ++ l :: post)).length
        = (pre ++ l :: post).length := by
  have h2 : generate_input_lines seed (pre ++ l :: post)
      = pre ++ new_randomiz seed :: post :=
    replaceFirstMarker_spec (new_randomiz seed) pre l post hpre hl
  refine ⟨h2, ?_⟩
  rw [h2]
  simp

/-- Witness for C5_first_match_replacement on a four-line template whose
last line also contains the marker. -/
theorem C5_first_match_replacement_witness :
    (∀ x ∈ (["TITLE\n"] : List String), lineHasMarker x = false)
    ∧ lineHasMarker ("RANDOMIZ          1.        42\n") = true
    ∧ generate_input_lines 7
        (["TITLE\n"] ++ ("RANDOMIZ          1.        42\n") :: ["STOP\n", "RANDOMIZ 2\n"])
        = ["TITLE\n"] ++ new_randomiz 7 :: ["STOP\n", "RANDOMIZ 2\n"]
    ∧ (generate_input_lines 7
        (["TITLE\n"] ++ ("RANDOMIZ          1.        42\n") :: ["STOP\n", "RANDOMIZ 2\n"])).length
        = ((["TITLE\n"] : List String) ++ ("RANDOMIZ          1.        42\n") :: ["STOP\n", "RANDOMIZ 2\n"]).length :=
  ⟨by decide, by decide,
    (C5_first_match_replacement 7 (["TITLE\n"]) ("RANDOMIZ          1.        42\n")
      (["STOP\n", "RANDOMIZ 2\n"]) (by decide) (by decide)).1,
    (C5_first_match_replacement 7 (["TITLE\n"]) ("RANDOMIZ          1.        42\n")
      (["STOP\n", "RANDOMIZ 2\n"]) (by decide) (by decide)).2⟩

/-- Claim C6: whenever base.inp exists, the mutator succeeds, returns the
name base_IIII.inp (4-digit-padded iteration), the original base.inp no
longer exists afterwards, the renamed file holds the rewritten content, and
when no line contains the marker that content equals the original content
unchanged — the rename still happens and no error is raised. -/
theorem C6_rename_semantics (base : String) (iteration seed : Nat) (fs : FS)
    (data : List String) (hf : fsLookup fs (base ++ ".inp") = some data) :
    ∃ fs2, generate_input_fs base iteration seed fs
        = Except.ok (generate_input_name base iteration, fs2)
      ∧ fsLookup fs2 (base ++ ".inp") = none
      ∧ fsLookup fs2 (generate_input_name base iteration)
          = some (generate_input_lines seed data)
      ∧ ((∀ x ∈ data, lineHasMarker x = false) →
          generate_input_lines seed data = data) := by
  refine ⟨fsSet (fsErase (fsSet fs (base ++ ".inp") (generate_input_lines seed data))
      (base ++ ".inp")) (generate_input_name base iteration)
      (generate_input_lines seed data), ?_, ?_, ?_, ?_⟩
  · simp [generate_input_fs, hf]
  · rw [fsLookup_fsSet]
    rw [if_neg (Ne.symm (generate_input_name_ne base iteration))]
    rw [fsLookup_fsErase]
    simp
  · rw [fsLookup_fsSet]
    simp
  · intro h
    exact replaceFirstMarker_of_no_marker (new_randomiz seed) data h

/-- Witness for C6_rename_semantics: a one-file directory holding a
marker-free run.inp. -/
theorem C6_rename_semantics_witness :
    fsLookup ([(("run" ++ ".inp"), ["A\n"])]) ("run" ++ ".inp") = some ["A\n"]
    ∧ ∃ fs2, generate_input_fs ("run") 1 5 ([(("run" ++ ".inp"), ["A\n"])])
        = Except.ok (generate_input_name ("run") 1, fs2)
      ∧ fsLookup fs2 ("run" ++ ".inp") = none
      ∧ fsLookup fs2 (generate_input_name ("run") 1)
          = some (generate_input_lines 5 (["A\n"]))
      ∧ ((∀ x ∈ (["A\n"] : List String), lineHasMarker x = false) →
          generate_input_lines 5 (["A\n"]) = ["A\n"]) :=
  ⟨by decide, C6_rename_semantics ("run") 1 5 ([(("run" ++ ".inp"), ["A\n"])])
    (["A\n"]) (by decide)⟩

/-- Claim C7, counterexample.  The claim names the case-sensitive sentinel
none, but the code compares against the capitalised literal None: with the
configured value none the command does carry the override flag -e none
instead of being the bare default invocation. -/
theorem C7_counterexample :
    fluka_command ("/fluka/bin") ("none") = "/fluka/bin/rfluka -M 1 -e none"
    ∧ fluka_command ("/fluka/bin") ("none") ≠ "/fluka/bin/rfluka -M 1"
    ∧ occursIn ((" -e ").data) ((fluka_command ("/fluka/bin") ("none")).data) = true
    ∧ ts_fluka_command ("none") ("run_0001.inp")
        = "rfluka -M 1 -e none run_0001.inp" := by
  refine ⟨by decide, by decide, by decide, by decide⟩

/-- Claim C7 as amended: the sentinel is the case-sensitive literal None
(capital N).  When the configured value equals None the command invokes the
default binary with only the restart flag -M 1 and no override flag; for
every other value v — the lowercase none included — the command carries the
override flag -e followed by exactly v. -/
theorem C7_sentinel_custom_exe (p v inp : String) :
    (v = "None" →
      fluka_command p v = p ++ "/rfluka -M 1"
      ∧ ts_fluka_command v inp = "rfluka -M 1 " ++ inp)
    ∧ (v ≠ "None" →
      fluka_command p v = p ++ "/rfluka -M 1 -e " ++ v
      ∧ ts_fluka_command v inp = "rfluka -M 1 -e " ++ v ++ " " ++ inp) := by
  constructor
  · intro h
    subst h
    exact ⟨rfl, rfl⟩
  · intro h
    exact ⟨by simp [fluka_command, h], by simp [ts_fluka_command, h]⟩

/-- Witness for C7_sentinel_custom_exe at the sentinel and at a real path. -/
theorem C7_sentinel_custom_exe_witness :
    (fluka_command ("/fluka/bin") ("None") = "/fluka/bin" ++ "/rfluka -M 1"
      ∧ ts_fluka_command ("None") ("run_0001.inp") = "rfluka -M 1 " ++ "run_0001.inp")
    ∧ (fluka_command ("/fluka/bin") ("/opt/exe")
        = "/fluka/bin" ++ "/rfluka -M 1 -e " ++ "/opt/exe"
      ∧ ts_fluka_command ("/opt/exe") ("run_0001.inp")
        = "rfluka -M 1 -e " ++ "/opt/exe" ++ " " ++ "run_0001.inp") :=
  ⟨(C7_sentinel_custom_exe ("/fluka/bin") ("None") ("run_0001.inp")).1 rfl,
    (C7_sentinel_custom_exe ("/fluka/bin") ("/opt/exe") ("run_0001.inp")).2 (by decide)⟩

/-- Claim C10: the HTCondor submit description never depends on the queue
argument — two launch_jobs runs identical but for the queue produce
identical behaviour, submit descriptions included, for every job — and the
description universe field is the constant vanilla. -/
theorem C10_queue_independence (input_file : String) (job_number : Nat)
    (custom_exe q1 q2 mem : String) (ncpu disk time : Nat) (dry_run : Bool)
    (output_dir : Option String) (transfer_files output error log : String)
    (env : CondorEnv) (fluka_path : String) (st0 : RunState) :
    condorLaunchJobs input_file job_number custom_exe q1 mem ncpu disk time dry_run
      output_dir transfer_files output error log env fluka_path st0
    = condorLaunchJobs input_file job_number custom_exe q2 mem ncpu disk time dry_run
      output_dir transfer_files output error log env fluka_path st0
    ∧ ∀ (iteration : Nat) (input script_name mem2 : String)
        (ncpu2 disk2 time2 : Nat) (tf2 o2 e2 l2 : String),
      (generate_submit_description iteration input script_name mem2 ncpu2 disk2
        time2 tf2 o2 e2 l2).univ = "vanilla" :=
  ⟨rfl, fun _ _ _ _ _ _ _ _ _ _ _ => rfl⟩

/-- Claim C1: with dry-run enabled, the HTCondor variant opens no schedd
connection and performs no live submit, the task-spooler variant runs no
external submission command, and — when the template copy of every job is in
place so the mutation step succeeds — the would-be submission of each job
i in [1, N] is logged exactly once, in index order.  (The os.system cp of
the template is a local file copy, not a submission.) -/
theorem C1_dry_run_never_submits
    (input_file custom_exe queue mem : String) (job_number ncpu disk time : Nat)
    (output_dir : Option String) (transfer_files output error log : String)
    (cenv : CondorEnv) (tenv : CliEnv) (fluka_path : String) (cwd : List String) :
    ((resultState (condorLaunchJobs input_file job_number custom_exe queue mem ncpu
        disk time true output_dir transfer_files output error log cenv fluka_path
        (initState cwd))).events.filter isSubmissionEv = []
      ∧ ((∀ i, cenv.mutOk i = true) →
          (resultState (condorLaunchJobs input_file job_number custom_exe queue mem
            ncpu disk time true output_dir transfer_files output error log cenv
            fluka_path (initState cwd))).events.filter isLogEv
          = (List.range' 1 job_number).map (fun i =>
              Ev.logInfo (condorDryMsg mem ncpu disk time transfer_files output error
                log (stripped_name input_file) i))))
    ∧ ((resultState (tsLaunchJobs input_file job_number custom_exe true output_dir
        tenv (initState cwd))).events.filter isSubmissionEv = []
      ∧ ((∀ i, tenv.mutOk i = true) →
          (resultState (tsLaunchJobs input_file job_number custom_exe true output_dir
            tenv (initState cwd))).events.filter isLogEv
          = (List.range' 1 job_number).map (fun i =>
              Ev.logInfo (tsDryMsg custom_exe (stripped_name input_file) i)))) := by
  refine ⟨⟨?_, ?_⟩, ?_, ?_⟩
  · simp only [condorLaunchJobs, initState]
    rw [condorLoop_dry_no_submission]
    rfl
  · intro hm
    simp only [condorLaunchJobs, initState]
    rw [condorLoop_ok_of_mutOk input_file custom_exe mem ncpu disk time true
      transfer_files output error log cenv fluka_path (stripped_name input_file)
      (allocateDir cenv.ex (baseDirName input_file output_dir) cenv.fuel) hm]
    simp only [resultState]
    rw [List.filter_append]
    rw [evConcat_filter_map _ _ _ _ (fun i => condorOkEvs_dry_filter_log input_file
      custom_exe mem ncpu disk time transfer_files output error log cenv fluka_path
      (stripped_name input_file)
      (allocateDir cenv.ex (baseDirName input_file output_dir) cenv.fuel) i)]
    rfl
  · simp only [tsLaunchJobs, initState]
    rw [tsLoop_dry_no_submission]
    rfl
  · intro hm
    simp only [tsLaunchJobs, initState]
    rw [tsLoop_ok_of_mutOk input_file custom_exe true tenv (stripped_name input_file)
      (allocateDir tenv.ex (baseDirName input_file output_dir) tenv.fuel) hm]
    simp only [resultState]
    rw [List.filter_append]
    rw [evConcat_filter_map _ _ _ _ (fun i => tsOkEvs_dry_filter_log input_file
      custom_exe (stripped_name input_file)
      (allocateDir tenv.ex (baseDirName input_file output_dir) tenv.fuel) tenv i)]
    rfl

/-- Witness for C1_dry_run_never_submits: a concrete two-job dry run of both
variants with every mutation succeeding. -/
theorem C1_dry_run_never_submits_witness :
    (∀ i, (⟨fun _ => false, fun _ => true, fun _ => 0, 1⟩ : CondorEnv).mutOk i = true)
    ∧ (∀ i, (⟨fun _ => false, fun _ => true, fun _ => 0, fun _ => "", fun _ => "", 1⟩ : CliEnv).mutOk i = true)
    ∧ (resultState (condorLaunchJobs ("run.inp") 2 ("None") ("vanilla") ("1500") 1
        100000 86400 true none ("yes") ("o") ("e") ("l")
        (⟨fun _ => false, fun _ => true, fun _ => 0, 1⟩ : CondorEnv) ("/fluka")
        (initState (["home"])))).events.filter isSubmissionEv = []
    ∧ (resultState (condorLaunchJobs ("run.inp") 2 ("None") ("vanilla") ("1500") 1
        100000 86400 true none ("yes") ("o") ("e") ("l")
        (⟨fun _ => false, fun _ => true, fun _ => 0, 1⟩ : CondorEnv) ("/fluka")
        (initState (["home"])))).events.filter isLogEv
      = (List.range' 1 2).map (fun i =>
          Ev.logInfo (condorDryMsg ("1500") 1 100000 86400 ("yes") ("o") ("e") ("l")
            (stripped_name ("run.inp")) i))
    ∧ (resultState (tsLaunchJobs ("run.inp") 2 ("None") true none
        (⟨fun _ => false, fun _ => true, fun _ => 0, fun _ => "", fun _ => "", 1⟩ : CliEnv)
        (initState (["home"])))).events.filter isSubmissionEv = []
    ∧ (resultState (tsLaunchJobs ("run.inp") 2 ("None") true none
        (⟨fun _ => false, fun _ => true, fun _ => 0, fun _ => "", fun _ => "", 1⟩ : CliEnv)
        (initState (["home"])))).events.filter isLogEv
      = (List.range' 1 2).map (fun i =>
          Ev.logInfo (tsDryMsg ("None") (stripped_name ("run.inp")) i)) := by
  have h := C1_dry_run_never_submits ("run.inp") ("None") ("vanilla") ("1500") 2 1
    100000 86400 none ("yes") ("o") ("e") ("l")
    (⟨fun _ => false, fun _ => true, fun _ => 0, 1⟩ : CondorEnv)
    (⟨fun _ => false, fun _ => true, fun _ => 0, fun _ => "", fun _ => "", 1⟩ : CliEnv)
    ("/fluka") (["home"])
  exact ⟨fun _ => rfl, fun _ => rfl, h.1.1, h.1.2 (fun _ => rfl), h.2.1,
    h.2.2 (fun _ => rfl)⟩

/-- Claim C3, counterexample.  The claim quantifies over every preferred
root name, but with the multi-component override x/y the relative makedirs
arguments of later iterations resolve against the drifted working directory
(chdir ../.. ascends only two of the three levels): in a completed two-job
dry run from home, the run creates the root home/x/y and home/x/y/job_0001
inside it, but job_0002 is created at home/x/x/y/job_0002 — outside the
root, which never receives a job_0002 entry. -/
theorem C3_counterexample :
    resolvedMkdirs (["home"]) (resultState (condorLaunchJobs ("run.inp") 2 ("None")
      ("vanilla") ("1500") 1 100000 86400 true (some ("x/y")) ("yes") ("o") ("e")
      ("l") (⟨fun _ => false, fun _ => true, fun _ => 0, 1⟩ : CondorEnv) ("/fluka")
      (initState (["home"])))).events
      = [["home", "x", "y"], ["home", "x", "y", "job_0001"],
         ["home", "x", "x", "y", "job_0002"]]
    ∧ ["home", "x", "y", "job_0002"]
        ∉ resolvedMkdirs (["home"]) (resultState (condorLaunchJobs ("run.inp") 2
            ("None") ("vanilla") ("1500") 1 100000 86400 true (some ("x/y")) ("yes")
            ("o") ("e") ("l") (⟨fun _ => false, fun _ => true, fun _ => 0, 1⟩ : CondorEnv)
            ("/fluka") (initState (["home"])))).events := by
  refine ⟨by decide, by decide⟩

/-- Claim C3 as amended: when the allocated root name is a single clean
path component — no slash and none of .., ., the empty string, which always
holds for the default template-derived base name and for slash-free
overrides — the run creates the output root under the first name of the
probe sequence P, P_1, P_2, ... that does not already exist, resolved
directly under the starting directory, and a completed run creates inside
that root exactly N job directories job_0001 .. job_NNNN — 1-based,
zero-padded to width 4 by padZeros, the numeric part simply keeping its own
length once it has 4 or more digits.  Every makedirs argument is resolved
against the working directory current at its call, so this accounts for the
cwd drift that breaks the multi-component case of the counterexample. -/
theorem C3_output_layout
    (input_file P custom_exe queue mem : String) (job_number ncpu disk time k0 : Nat)
    (dry_run : Bool) (transfer_files output error log : String)
    (env : CondorEnv) (fluka_path : String) (cwd : List String)
    (hfree : env.ex (nameCandidate P k0) = false)
    (hbusy : ∀ j, j < k0 → env.ex (nameCandidate P j) = true)
    (hfuel : k0 ≤ env.fuel)
    (hm : ∀ i, env.mutOk i = true)
    (hslash : '/' ∉ (nameCandidate P k0).data)
    (hne1 : nameCandidate P k0 ≠ "..") (hne2 : nameCandidate P k0 ≠ ".")
    (hne3 : nameCandidate P k0 ≠ "") :
    allocateDir env.ex P env.fuel = nameCandidate P k0
    ∧ resolvedMkdirs cwd (resultState (condorLaunchJobs input_file job_number
        custom_exe queue mem ncpu disk time dry_run (some P) transfer_files output
        error log env fluka_path (initState cwd))).events
      = (cwd ++ [nameCandidate P k0])
        :: (List.range' 1 job_number).map (fun i =>
            cwd ++ [nameCandidate P k0, "job_" ++ pyFormat04d i])
    ∧ nameCandidate P 0 = P
    ∧ (∀ k, nameCandidate P (k + 1) = P ++ "_" ++ Nat.repr (k + 1))
    ∧ (∀ s : String, 4 ≤ s.length → padZeros 4 s = s)
    ∧ (∀ s : String, (padZeros 4 s).length = max 4 s.length) := by
  have hdir : allocateDir env.ex P env.fuel = nameCandidate P k0 :=
    allocateDir_eq env.ex P env.fuel k0 hfuel hfree hbusy
  refine ⟨hdir, ?_, rfl, fun k => rfl, fun s hs => padZeros_eq_of_le 4 s hs,
    fun s => by rw [padZeros_length]; omega⟩
  cases dry_run with
  | true =>
    have hres : ∀ i, resolvedMkdirs cwd (condorOkEvs input_file custom_exe mem ncpu
        disk time true transfer_files output error log env fluka_path
        (stripped_name input_file) (nameCandidate P k0) i)
        = [cwd ++ [nameCandidate P k0, "job_" ++ pyFormat04d i]] := by
      intro i
      rw [condorOkEvs_resolvedMkdirs]
      rw [applyChdir_two cwd _ _
        (pathComponents_join _ _ hslash (jobName_no_slash i)) hne1 hne2 hne3
        (jobName_ne_parent i) (jobName_ne_dot i) (jobName_ne_empty i)]
    have hrep : ∀ i, replayCwd cwd (condorOkEvs input_file custom_exe mem ncpu disk
        time true transfer_files output error log env fluka_path
        (stripped_name input_file) (nameCandidate P k0) i) = cwd := by
      intro i
      rw [condorOkEvs_replayCwd]
      exact stepCwd_restore _ cwd i
        (pathComponents_join _ _ hslash (jobName_no_slash i)) hne1 hne2 hne3
    simp only [condorLaunchJobs, initState, baseDirName]
    rw [hdir]
    rw [condorLoop_ok_of_mutOk input_file custom_exe mem ncpu disk time true
      transfer_files output error log env fluka_path (stripped_name input_file)
      (nameCandidate P k0) hm]
    simp only [resultState, if_true]
    rw [resolvedMkdirs_append]
    rw [show replayCwd cwd ([] ++ [Ev.mkdir (nameCandidate P k0)]) = cwd from rfl]
    rw [show resolvedMkdirs cwd ([] ++ [Ev.mkdir (nameCandidate P k0)])
        = [applyChdir cwd (nameCandidate P k0)] from rfl]
    rw [applyChdir_single cwd (nameCandidate P k0) hslash hne1 hne2 hne3]
    rw [evConcat_resolvedMkdirs_restore _ _ _ _ hres hrep]
    rfl
  | false =>
    have hres : ∀ i, resolvedMkdirs cwd (condorOkEvs input_file custom_exe mem ncpu
        disk time false transfer_files output error log env fluka_path
        (stripped_name input_file) (nameCandidate P k0) i)
        = [cwd ++ [nameCandidate P k0, "job_" ++ pyFormat04d i]] := by
      intro i
      rw [condorOkEvs_resolvedMkdirs]
      rw [applyChdir_two cwd _ _
        (pathComponents_join _ _ hslash (jobName_no_slash i)) hne1 hne2 hne3
        (jobName_ne_parent i) (jobName_ne_dot i) (jobName_ne_empty i)]
    have hrep : ∀ i, replayCwd cwd (condorOkEvs input_file custom_exe mem ncpu disk
        time false transfer_files output error log env fluka_path
        (stripped_name input_file) (nameCandidate P k0) i) = cwd := by
      intro i
      rw [condorOkEvs_replayCwd]
      exact stepCwd_restore _ cwd i
        (pathComponents_join _ _ hslash (jobName_no_slash i)) hne1 hne2 hne3
    simp only [condorLaunchJobs, initState, baseDirName]
    rw [hdir]
    rw [condorLoop_ok_of_mutOk input_file custom_exe mem ncpu disk time false
      transfer_files output error log env fluka_path (stripped_name input_file)
      (nameCandidate P k0) hm]
    simp only [resultState]
    rw [if_neg (by decide)]
    rw [resolvedMkdirs_append]
    rw [show replayCwd cwd (([] ++ [Ev.mkdir (nameCandidate P k0)]) ++ [Ev.scheddInit])
        = cwd from rfl]
    rw [show resolvedMkdirs cwd (([] ++ [Ev.mkdir (nameCandidate P k0)]) ++ [Ev.scheddInit])
        = [applyChdir cwd (nameCandidate P k0)] from rfl]
    rw [applyChdir_single cwd (nameCandidate P k0) hslash hne1 hne2 hne3]
    rw [evConcat_resolvedMkdirs_restore _ _ _ _ hres hrep]
    rfl

/-- Witness for C3_output_layout: the preferred name run and run_1 exist,
so the root is created as run_2 directly under home, holding job_0001 and
job_0002. -/
theorem C3_output_layout_witness :
    (⟨fun s => s == "run" || s == "run_1", fun _ => true, fun _ => 0, 3⟩ : CondorEnv).ex
        (nameCandidate ("run") 2) = false
    ∧ (∀ j, j < 2 → (⟨fun s => s == "run" || s == "run_1", fun _ => true, fun _ => 0, 3⟩ : CondorEnv).ex
        (nameCandidate ("run") j) = true)
    ∧ 2 ≤ (⟨fun s => s == "run" || s == "run_1", fun _ => true, fun _ => 0, 3⟩ : CondorEnv).fuel
    ∧ (∀ i, (⟨fun s => s == "run" || s == "run_1", fun _ => true, fun _ => 0, 3⟩ : CondorEnv).mutOk i = true)
    ∧ '/' ∉ (nameCandidate ("run") 2).data
    ∧ nameCandidate ("run") 2 ≠ ".."
    ∧ allocateDir (⟨fun s => s == "run" || s == "run_1", fun _ => true, fun _ => 0, 3⟩ : CondorEnv).ex
        ("run") (⟨fun s => s == "run" || s == "run_1", fun _ => true, fun _ => 0, 3⟩ : CondorEnv).fuel
      = nameCandidate ("run") 2
    ∧ resolvedMkdirs (["home"]) (resultState (condorLaunchJobs ("run.inp") 2 ("None")
        ("vanilla") ("1500") 1 100000 86400 true (some ("run")) ("yes") ("o") ("e")
        ("l") (⟨fun s => s == "run" || s == "run_1", fun _ => true, fun _ => 0, 3⟩ : CondorEnv)
        ("/fluka") (initState (["home"])))).events
      = (["home"] ++ [nameCandidate ("run") 2])
        :: (List.range' 1 2).map (fun i =>
            ["home"] ++ [nameCandidate ("run") 2, "job_" ++ pyFormat04d i]) := by
  have h := C3_output_layout ("run.inp") ("run") ("None") ("vanilla") ("1500") 2 1
    100000 86400 2 true ("yes") ("o") ("e") ("l")
    (⟨fun s => s == "run" || s == "run_1", fun _ => true, fun _ => 0, 3⟩ : CondorEnv)
    ("/fluka") (["home"]) (by decide) (by decide) (by decide) (fun _ => rfl)
    (by decide) (by decide) (by decide) (by decide)
  exact ⟨by decide, by decide, by decide, fun _ => rfl, by decide, by decide,
    h.1, h.2.1⟩
/-- Claim C2 as amended: in the task-spooler variant with submissions
enabled, a submission command exiting non-zero for job i is reported with
the index of that job and its stderr, and the batch still completes — every job
directory 1..N is created and the run does not abort.  A failed seed
mutation, by contrast, raises and aborts the batch (see the counterexample
for the claim as stated). -/
theorem C2_submission_failure_not_fatal
    (input_file custom_exe : String) (job_number : Nat)
    (output_dir : Option String) (env : CliEnv) (cwd : List String)
    (hm : ∀ i, env.mutOk i = true) :
    exceptAborted (tsLaunchJobs input_file job_number custom_exe false output_dir env
      (initState cwd)) = false
    ∧ (resultState (tsLaunchJobs input_file job_number custom_exe false output_dir
        env (initState cwd))).events.filter isMkdirEv
      = Ev.mkdir (allocateDir env.ex (baseDirName input_file output_dir) env.fuel)
        :: (List.range' 1 job_number).map (fun i =>
            Ev.mkdir (os_path_join
              (allocateDir env.ex (baseDirName input_file output_dir) env.fuel)
              ("job_" ++ pyFormat04d i)))
    ∧ ∀ i, 1 ≤ i → i ≤ job_number → ¬ (env.subRC i = 0) →
        Ev.printOut (ts_submission_failed_msg i (env.subErr i))
          ∈ (resultState (tsLaunchJobs input_file job_number custom_exe false
              output_dir env (initState cwd))).events := by
  have hloop := tsLoop_ok_of_mutOk input_file custom_exe false env
    (stripped_name input_file)
    (allocateDir env.ex (baseDirName input_file output_dir) env.fuel) hm
  refine ⟨?_, ?_, ?_⟩
  · simp only [tsLaunchJobs, initState]
    rw [hloop]
    rfl
  · simp only [tsLaunchJobs, initState]
    rw [hloop]
    simp only [resultState]
    rw [List.filter_append]
    rw [evConcat_filter_map _ _ _ _ (fun i => tsOkEvs_filter_mkdir input_file
      custom_exe (stripped_name input_file)
      (allocateDir env.ex (baseDirName input_file output_dir) env.fuel) false env i)]
    rfl
  · intro i h1 h2 hrc
    simp only [tsLaunchJobs, initState]
    rw [hloop]
    simp only [resultState]
    refine List.mem_append.mpr (Or.inr ?_)
    refine mem_evConcat _ _ i _ ?_ ?_
    · exact List.mem_range'.mpr ⟨i - 1, by omega, by omega⟩
    · exact ts_failed_print_mem input_file custom_exe (stripped_name input_file)
        (allocateDir env.ex (baseDirName input_file output_dir) env.fuel) env i hrc

/-- Witness for C2_submission_failure_not_fatal: two jobs, both bsub-style
submissions failing, batch still completes. -/
theorem C2_submission_failure_not_fatal_witness :
    (∀ i, (⟨fun _ => false, fun _ => true, fun _ => 1, fun _ => "", fun _ => "boom", 1⟩ : CliEnv).mutOk i = true)
    ∧ exceptAborted (tsLaunchJobs ("run.inp") 2 ("None") false none
        (⟨fun _ => false, fun _ => true, fun _ => 1, fun _ => "", fun _ => "boom", 1⟩ : CliEnv)
        (initState (["home"]))) = false
    ∧ (1 ≤ 1 → 1 ≤ 2 → ¬ ((⟨fun _ => false, fun _ => true, fun _ => 1, fun _ => "", fun _ => "boom", 1⟩ : CliEnv).subRC 1 = 0) →
        Ev.printOut (ts_submission_failed_msg 1
          ((⟨fun _ => false, fun _ => true, fun _ => 1, fun _ => "", fun _ => "boom", 1⟩ : CliEnv).subErr 1))
          ∈ (resultState (tsLaunchJobs ("run.inp") 2 ("None") false none
              (⟨fun _ => false, fun _ => true, fun _ => 1, fun _ => "", fun _ => "boom", 1⟩ : CliEnv)
              (initState (["home"])))).events) := by
  have h := C2_submission_failure_not_fatal ("run.inp") ("None") 2 none
    (⟨fun _ => false, fun _ => true, fun _ => 1, fun _ => "", fun _ => "boom", 1⟩ : CliEnv)
    (["home"]) (fun _ => rfl)
  exact ⟨fun _ => rfl, h.1, fun a b c => h.2.2 1 a b c⟩

/-- Claim C2, counterexample.  In the HTCondor variant a failed seed
mutation of job 1 (missing template in the job directory) raises: the run
aborts and job 2 is never processed — its directory run/job_0002 is never
created — refuting the no-abort-on-first-failure property as stated. -/
theorem C2_counterexample :
    exceptAborted (condorLaunchJobs ("run.inp") 2 ("None") ("vanilla") ("1500") 1
      100000 86400 true none ("yes") ("o") ("e") ("l")
      (⟨fun _ => false, fun i => decide (i ≠ 1), fun _ => 0, 1⟩ : CondorEnv)
      ("/fluka") (initState (["home"]))) = true
    ∧ Ev.mkdir ("run/job_0002")
        ∉ (resultState (condorLaunchJobs ("run.inp") 2 ("None") ("vanilla") ("1500")
            1 100000 86400 true none ("yes") ("o") ("e") ("l")
            (⟨fun _ => false, fun i => decide (i ≠ 1), fun _ => 0, 1⟩ : CondorEnv)
            ("/fluka") (initState (["home"])))).events := by
  refine ⟨by decide, by decide⟩

/-- Claim C8 as amended: on the success path of an iteration — mutation
succeeded, so the trailing chdir ../.. runs — the working directory is
restored, provided the root directory name is a single path component (as
the default template-derived name always is).  A raised iteration, or a
multi-component output-directory override, leaves the working directory
changed (see the counterexample). -/
theorem C8_cwd_restored_on_success
    (input_file custom_exe mem : String) (ncpu disk time : Nat) (dry_run : Bool)
    (transfer_files output error log : String) (env : CondorEnv)
    (fluka_path stripped directory : String) (i : Nat) (st : RunState)
    (hm : env.mutOk i = true)
    (hpc : pathComponents (os_path_join directory ("job_" ++ pyFormat04d i))
        = [directory, "job_" ++ pyFormat04d i])
    (hd1 : directory ≠ "..") (hd2 : directory ≠ ".") (hd3 : directory ≠ "") :
    exceptAborted (condorIter input_file custom_exe mem ncpu disk time dry_run
      transfer_files output error log env fluka_path stripped directory i st) = false
    ∧ (resultState (condorIter input_file custom_exe mem ncpu disk time dry_run
        transfer_files output error log env fluka_path stripped directory i st)).cwd
      = st.cwd := by
  have hit : condorIter input_file custom_exe mem ncpu disk time dry_run
      transfer_files output error log env fluka_path stripped directory i st
      = Except.ok ⟨st.events ++ condorOkEvs input_file custom_exe mem ncpu disk time
          dry_run transfer_files output error log env fluka_path stripped directory i,
        stepCwd directory st.cwd i⟩ := by
    simp [condorIter, hm]
  rw [hit]
  exact ⟨rfl, stepCwd_restore directory st.cwd i hpc hd1 hd2 hd3⟩

/-- Witness for C8_cwd_restored_on_success at the single-component root
run, job 1. -/
theorem C8_cwd_restored_on_success_witness :
    (⟨fun _ => false, fun _ => true, fun _ => 0, 1⟩ : CondorEnv).mutOk 1 = true
    ∧ pathComponents (os_path_join ("run") ("job_" ++ pyFormat04d 1))
        = ["run", "job_" ++ pyFormat04d 1]
    ∧ ("run" : String) ≠ ".." ∧ ("run" : String) ≠ "." ∧ ("run" : String) ≠ ""
    ∧ exceptAborted (condorIter ("run.inp") ("None") ("1500") 1 100000 86400 true
        ("yes") ("o") ("e") ("l")
        (⟨fun _ => false, fun _ => true, fun _ => 0, 1⟩ : CondorEnv) ("/fluka")
        ("run") ("run") 1 (initState (["home"]))) = false
    ∧ (resultState (condorIter ("run.inp") ("None") ("1500") 1 100000 86400 true
        ("yes") ("o") ("e") ("l")
        (⟨fun _ => false, fun _ => true, fun _ => 0, 1⟩ : CondorEnv) ("/fluka")
        ("run") ("run") 1 (initState (["home"])))).cwd = (initState (["home"])).cwd := by
  have h := C8_cwd_restored_on_success ("run.inp") ("None") ("1500") 1 100000 86400
    true ("yes") ("o") ("e") ("l")
    (⟨fun _ => false, fun _ => true, fun _ => 0, 1⟩ : CondorEnv) ("/fluka")
    ("run") ("run") 1 (initState (["home"])) rfl (by decide) (by decide) (by decide)
    (by decide)
  exact ⟨rfl, by decide, by decide, by decide, by decide, h.1, h.2⟩

/-- Claim C8, counterexample.  With the output-directory override x/y the
job directory is three components deep, but the script ascends only two
(chdir ../..): after one successful dry-run iteration of the task-spooler
variant the working directory is home/x, not the original home — the change
into the job subdirectory is NOT always undone. -/
theorem C8_counterexample :
    (resultState (tsLaunchJobs ("run.inp") 1 ("None") true (some ("x/y"))
      (⟨fun _ => false, fun _ => true, fun _ => 0, fun _ => "", fun _ => "", 1⟩ : CliEnv)
      (initState (["home"])))).cwd = ["home", "x"]
    ∧ (resultState (tsLaunchJobs ("run.inp") 1 ("None") true (some ("x/y"))
        (⟨fun _ => false, fun _ => true, fun _ => 0, fun _ => "", fun _ => "", 1⟩ : CliEnv)
        (initState (["home"])))).cwd ≠ (initState (["home"])).cwd := by
  refine ⟨by decide, by decide⟩

/-- Claim C9, code-bug exhibit.  The task-spooler failure print carries the
own index of the failing job (Job 1 ...), but the LSF failure print of
launch_jobs_lsf.py:113 interpolates job_number — the total batch size — so
for a batch of 3 the message for failing job 1 is Job 3 submission failed,
which does not contain the digit of index 1 at all.  In addition, in the
current LSF code that branch is unreachable: the substitute call of generate_sh lacks
the queue placeholder value and raises before any submission, so a full LSF
run aborts with no submission command ever run. -/
theorem C9_failure_message_index :
    lsf_submission_failed_msg 3 ("boom") = "Job 3 submission failed: boom"
    ∧ occursIn ((Nat.repr 1).data) (("Job 3 submission failed: boom").data) = false
    ∧ ts_submission_failed_msg 1 ("boom") = "Job 1 submission failed: boom"
    ∧ occursIn ((Nat.repr 1).data) ((ts_submission_failed_msg 1 ("boom")).data) = true
    ∧ (resultState (lsfLaunchJobs ("run.inp") 3 ("None") ("normal") ("1500") 1
        ("1-00:00:00") false none
        (⟨fun _ => false, fun _ => true, fun _ => 1, fun _ => "", fun _ => "boom", 1⟩ : CliEnv)
        ("/fluka") (initState (["home"])))).events.filter isRunCmdEv = []
    ∧ exceptAborted (lsfLaunchJobs ("run.inp") 3 ("None") ("normal") ("1500") 1
        ("1-00:00:00") false none
        (⟨fun _ => false, fun _ => true, fun _ => 1, fun _ => "", fun _ => "boom", 1⟩ : CliEnv)
        ("/fluka") (initState (["home"]))) = true := by
  refine ⟨by decide, by decide, by decide, by decide, by decide, by decide⟩

end FlukaQueueSub
